import Mathlib

/-!
Verification development for the inhouse bot core entry layer
(`src/inhouse_bot/inhouse_bot.py`): the background-jobs scheduler tick,
the startup handler `on_ready`, the command error handler
`on_command_error`, and the queue-join validation they report on.

The Python methods are shallowly embedded as pure Lean functions:
the scheduler tick becomes a function from the bot state (guild list,
job counter, queue contents) and the tick inputs (wall-clock seconds of
day, an optional exception point inside the `try` body) to a tick
outcome (new state, tasks handed to the event loop, whether the next
tick was scheduled by the `finally` block).  Wall-clock `%H:%M`
formatting is embedded as integer division of the second-of-day by 60.
-/

namespace InhouseBotVerify

abbrev ServerId := Nat
abbrev PlayerId := Nat
abbrev Role := Nat

/-- A queued entry: the queuing player, the server the queue belongs to,
the requested role and the optional duo partner. -/
structure QueueEntry where
  player : PlayerId
  server : ServerId
  role : Role
  duo : Option PlayerId
deriving DecidableEq, Repr

/-- The entries of one server inside the global queue table. -/
def queueFor (sid : ServerId) (qs : List QueueEntry) : List QueueEntry :=
  qs.filter (fun e => e.server == sid)

/-- Modelled from the spec: `game_queue.reset_queue` is not under `src/`.
Spec section 4.1 says `resetQueue` clears all queue entries; the call site in
`background_jobs` passes no server argument and then refreshes the queue
channels of all servers (`server_id=None`), so the no-argument form is
modelled as clearing every server's entries. -/
def reset_queue (_qs : List QueueEntry) : List QueueEntry := []

/-- Modelled from the spec: `get_server_config_by_key` is not under `src/`.
Spec section 6 describes the ConfigStore as read-only per-server settings,
among them the boolean `queueResetEnabled`; a server without a stored value
is falsy. -/
def get_server_config_by_key (configs : List (ServerId × Bool)) (server_id : ServerId) : Bool :=
  (List.lookup server_id configs).getD false

/-- The constants read by `background_jobs`: `QUEUE_RESET_TIME` (a `%H:%M`
string, embedded as minute-of-day) and the `INHOUSE_BOT_TOURNAMENTS`
feature flag. -/
structure SchedulerConfig where
  QUEUE_RESET_TIME : Nat
  INHOUSE_BOT_TOURNAMENTS : Bool
deriving DecidableEq, Repr

/-- The mutable bot state that `background_jobs` reads and writes:
`self.guilds`, `self.job_counter`, and the global queue table. -/
structure InhouseBotState where
  guilds : List ServerId
  job_counter : Nat
  queues : List QueueEntry
deriving DecidableEq, Repr

/-- A coroutine handed to the event loop via `self.loop.create_task`. -/
inductive LoopTask
  | updateQueueChannels (server_id : Option ServerId)
  | tournamentCheck (server_id : ServerId)
deriving DecidableEq, Repr

/-- A point inside the `try` body of `background_jobs` at which an exception
may be raised: the server-config lookup or the queue reset (both hit the
database). -/
inductive FailPoint
  | configLookup
  | resetQueue
deriving DecidableEq, Repr

/-- The observable outcome of one `background_jobs` tick: the state after the
tick, the tasks added to the event loop during it, and whether the `finally`
block scheduled the next tick. -/
structure TickOutcome where
  state : InhouseBotState
  createdTasks : List LoopTask
  nextTickScheduled : Bool
deriving DecidableEq, Repr

/-- The tournament-polling part of the `try` body: every 5th job cycle,
when tournaments are enabled, a `tournament_check` task for the first
guild is added to the event loop. -/
def tournamentTasks (cfg : SchedulerConfig) (job_counter : Nat) (g0 : ServerId) : List LoopTask :=
  if cfg.INHOUSE_BOT_TOURNAMENTS && job_counter % 5 == 0 then
    [LoopTask.tournamentCheck g0]
  else []

/-- The `try ... except Exception` body of `background_jobs`.  Returns the
queue table after the body and the tasks created during it.  An empty guild
list makes `self.guilds[0]` raise, which the `except` swallows; `failAt`
models an exception raised at the config lookup or at the queue reset, also
swallowed with the effects up to that point (none in either case). -/
def runTry (cfg : SchedulerConfig) (configs : List (ServerId × Bool)) (nowSec : Nat)
    (failAt : Option FailPoint) (job_counter : Nat) (guilds : List ServerId)
    (queues : List QueueEntry) : List QueueEntry × List LoopTask :=
  match guilds with
  | [] => (queues, [])
  | g0 :: _ =>
    if failAt = some FailPoint.configLookup then (queues, [])
    else if nowSec / 60 == cfg.QUEUE_RESET_TIME && get_server_config_by_key configs g0 then
      if failAt = some FailPoint.resetQueue then (queues, [])
      else
        (reset_queue queues,
         LoopTask.updateQueueChannels none :: tournamentTasks cfg job_counter g0)
    else (queues, tournamentTasks cfg job_counter g0)

/-- One tick of `InhouseBot.background_jobs`: run the `try` body, then the
`finally` block increments `job_counter` and always schedules the next tick
with `threading.Timer`.  Note that `reset_queue` is applied to the state
directly inside this function (i.e. inside the timer thread), while the
channel refresh and the tournament check are only handed to the event
loop as tasks. -/
def background_jobs (cfg : SchedulerConfig) (configs : List (ServerId × Bool))
    (nowSec : Nat) (failAt : Option FailPoint) (s : InhouseBotState) : TickOutcome :=
  let r := runTry cfg configs nowSec failAt s.job_counter s.guilds s.queues
  { state := { guilds := s.guilds, job_counter := s.job_counter + 1, queues := r.1 },
    createdTasks := r.2,
    nextTickScheduled := true }

/-- A sequence of scheduler ticks, each given by its second-of-day and
optional exception point; returns the final state and how many times the
queue reset fired (observed through the `updateQueueChannels` task the reset
branch creates). -/
def runTicks (cfg : SchedulerConfig) (configs : List (ServerId × Bool)) :
    InhouseBotState → List (Nat × Option FailPoint) → InhouseBotState × Nat
  | s, [] => (s, 0)
  | s, (t, f) :: rest =>
    let o := background_jobs cfg configs t f s
    let r := runTicks cfg configs o.state rest
    (r.1, (if o.createdTasks.contains (LoopTask.updateQueueChannels none) then 1 else 0) + r.2)

/-- Spec-side statement of claim C1, written from the claim's words for
comparison with `background_jobs`: on a tick whose time-of-day matches the
reset time, every server with reset enabled has its queue emptied, and no
server with reset disabled has its queue emptied. -/
def specResetEveryEnabledServer (cfg : SchedulerConfig) (configs : List (ServerId × Bool))
    (nowSec : Nat) (s : InhouseBotState) : Prop :=
  nowSec / 60 = cfg.QUEUE_RESET_TIME →
    ∀ sid : ServerId,
      (get_server_config_by_key configs sid = true →
        queueFor sid (background_jobs cfg configs nowSec none s).state.queues = []) ∧
      (get_server_config_by_key configs sid = false →
        ¬(queueFor sid s.queues ≠ [] ∧
          queueFor sid (background_jobs cfg configs nowSec none s).state.queues = []))

/-- Spec-side statement of claim C3, written from the claim's words for
comparison with `background_jobs`: across any run of ticks that all fall in
a single wall-clock minute matching the reset time, the reset fires at most
once. -/
def specResetAtMostOncePerMinute (cfg : SchedulerConfig) (configs : List (ServerId × Bool))
    (s : InhouseBotState) (ticks : List (Nat × Option FailPoint)) : Prop :=
  (∀ tf ∈ ticks, tf.1 / 60 = cfg.QUEUE_RESET_TIME) →
  (runTicks cfg configs s ticks).2 ≤ 1

/-- The condition under which one tick fires the queue reset: a nonempty
guild list, no exception, a matching minute, and the first guild's
`queue_reset` config enabled. -/
def resetFireCond (cfg : SchedulerConfig) (configs : List (ServerId × Bool))
    (guilds : List ServerId) (tf : Nat × Option FailPoint) : Bool :=
  match guilds with
  | [] => false
  | g0 :: _ =>
    tf.2.isNone && (tf.1 / 60 == cfg.QUEUE_RESET_TIME)
      && get_server_config_by_key configs g0

/-- Status of a server's ready-check. -/
inductive CheckStatus
  | pending
  | confirmed
  | cancelled
deriving DecidableEq, Repr

/-- The steps of `InhouseBot.on_ready`, in order of execution. -/
inductive ReadyAction
  | cancelAllReadyChecks
  | updateQueueChannelsAll
  | updateRankingChannelsAll
  | startBackgroundJobs
deriving DecidableEq, Repr

/-- Modelled from the spec: `game_queue.cancel_all_ready_checks` is not under
`src/`.  Spec section 4.3 `cancelAll()` force-transitions any active (Pending)
ready-check to Cancelled. -/
def cancel_all_ready_checks (checks : List (ServerId × CheckStatus)) :
    List (ServerId × CheckStatus) :=
  checks.map (fun c => if c.2 = CheckStatus.pending then (c.1, CheckStatus.cancelled) else c)

/-- `InhouseBot.on_ready`: cancels all ready-checks, then rewrites the queue
channels, then the ranking channels, then starts the background-jobs
scheduler.  Returns the ready-check table after the handler and the ordered
trace of its steps. -/
def on_ready (checks : List (ServerId × CheckStatus)) :
    List (ServerId × CheckStatus) × List ReadyAction :=
  (cancel_all_ready_checks checks,
   [ReadyAction.cancelAllReadyChecks, ReadyAction.updateQueueChannelsAll,
    ReadyAction.updateRankingChannelsAll, ReadyAction.startBackgroundJobs])

/-- The original exceptions that reach `on_command_error` wrapped in a
`CommandInvokeError`. -/
inductive InvokeError
  | playerInGame
  | playerInReadyCheck
  | otherInvokeError
deriving DecidableEq, Repr

/-- The error kinds dispatched on by the `isinstance` chain of
`InhouseBot.on_command_error`. -/
inductive BotError
  | commandNotFound
  | missingRequiredArgument
  | conversionError
  | noPrivateMessage
  | queueChannelsOnly
  | sameRolesForDuo
  | adminGroupOnly
  | commandInvokeError (original : InvokeError)
  | otherError
deriving DecidableEq, Repr

/-- The user-facing messages `on_command_error` can send, one tag per
`ctx.send` call site. -/
inductive SentMessage
  | commandNotFoundMsg
  | argumentsMissingMsg
  | privateMessageMsg
  | queueChannelsOnlyMsg
  | duosDifferentRolesMsg
  | adminOnlyMsg
  | playerInGameMsg
  | playerInReadyCheckMsg
  | genericErrorMsg
deriving DecidableEq, Repr

/-- `InhouseBot.on_command_error`: the messages sent to the caller for each
error kind, following the `isinstance` chain of the source.  The
`ConversionError` branch is `pass`: converters handle their own feedback. -/
def on_command_error : BotError → List SentMessage
  | BotError.commandNotFound => [SentMessage.commandNotFoundMsg]
  | BotError.missingRequiredArgument => [SentMessage.argumentsMissingMsg]
  | BotError.conversionError => []
  | BotError.noPrivateMessage => [SentMessage.privateMessageMsg]
  | BotError.queueChannelsOnly => [SentMessage.queueChannelsOnlyMsg]
  | BotError.sameRolesForDuo => [SentMessage.duosDifferentRolesMsg]
  | BotError.adminGroupOnly => [SentMessage.adminOnlyMsg]
  | BotError.commandInvokeError InvokeError.playerInGame => [SentMessage.playerInGameMsg]
  | BotError.commandInvokeError InvokeError.playerInReadyCheck =>
      [SentMessage.playerInReadyCheckMsg]
  | BotError.commandInvokeError InvokeError.otherInvokeError => [SentMessage.genericErrorMsg]
  | BotError.otherError => [SentMessage.genericErrorMsg]

/-- The queue-engine state a join request is validated against: the active
entries, the participants of games awaiting a result, and the participants
of pending ready-checks, per server. -/
structure QueueState where
  entries : List QueueEntry
  awaitingGames : List (ServerId × List PlayerId)
  pendingChecks : List (ServerId × List PlayerId)
deriving DecidableEq, Repr

/-- Validation failures of the queue-join operations (spec section 7
taxonomy; the bar failure records whether it came from an awaiting-result
game or from a pending ready-check). -/
inductive QueueError
  | alreadyQueued
  | playerBarred (inGame : Bool)
  | sameRolesForDuo
deriving DecidableEq, Repr

/-- Whether the player has an active entry on the server. -/
def hasActiveEntry (st : QueueState) (sid : ServerId) (p : PlayerId) : Bool :=
  st.entries.any (fun e => e.server == sid && e.player == p)

/-- Whether the player is a participant of an awaiting-result game on the
server. -/
def inAwaitingGame (st : QueueState) (sid : ServerId) (p : PlayerId) : Bool :=
  st.awaitingGames.any (fun g => g.1 == sid && g.2.contains p)

/-- Whether the player is a participant of a pending ready-check on the
server. -/
def inPendingCheck (st : QueueState) (sid : ServerId) (p : PlayerId) : Bool :=
  st.pendingChecks.any (fun c => c.1 == sid && c.2.contains p)

/-- Modelled from the spec: the per-player validation of `join` is not under
`src/`.  Spec section 4.1: fails with `AlreadyQueued` if the player has an
active entry, otherwise with `PlayerBarred` if the player is a participant of
an AwaitingResult game or of a Pending ReadyCheck for that server. -/
def joinCheck (st : QueueState) (sid : ServerId) (p : PlayerId) : Option QueueError :=
  if hasActiveEntry st sid p then some QueueError.alreadyQueued
  else if inAwaitingGame st sid p then some (QueueError.playerBarred true)
  else if inPendingCheck st sid p then some (QueueError.playerBarred false)
  else none

/-- Modelled from the spec: `join` is not under `src/`.  Spec section 4.1:
validates the player, then inserts the entry. -/
def join (st : QueueState) (sid : ServerId) (p : PlayerId) (r : Role) :
    Except QueueError QueueState :=
  match joinCheck st sid p with
  | some e => Except.error e
  | none => Except.ok { st with entries := st.entries ++ [⟨p, sid, r, none⟩] }

/-- Modelled from the spec: `joinDuo` is not under `src/`.  Spec section 4.1:
fails with `SameRolesForDuo` if the two roles are equal; otherwise the same
barring and duplicate checks as `join` for both players; both entries are
inserted atomically or neither is. -/
def joinDuo (st : QueueState) (sid : ServerId) (pA : PlayerId) (rA : Role)
    (pB : PlayerId) (rB : Role) : Except QueueError QueueState :=
  if rA == rB then Except.error QueueError.sameRolesForDuo
  else
    match joinCheck st sid pA with
    | some e => Except.error e
    | none =>
      match joinCheck st sid pB with
      | some e => Except.error e
      | none =>
        Except.ok { st with entries :=
          st.entries ++ [⟨pA, sid, rA, some pB⟩, ⟨pB, sid, rB, some pA⟩] }

/-- Modelled from the spec and the imports of `inhouse_bot.py`: how queue
validation failures raised inside a command reach `on_command_error`.
`SameRolesForDuo` is dispatched on directly; the bar failures surface as
`PlayerInGame` or `PlayerInReadyCheck` wrapped in a `CommandInvokeError`. -/
def surface : QueueError → BotError
  | QueueError.sameRolesForDuo => BotError.sameRolesForDuo
  | QueueError.playerBarred true => BotError.commandInvokeError InvokeError.playerInGame
  | QueueError.playerBarred false => BotError.commandInvokeError InvokeError.playerInReadyCheck
  | QueueError.alreadyQueued => BotError.commandInvokeError InvokeError.otherInvokeError

/-- Claim C1 counterexample: with two servers where the first guild has
queue reset disabled and server 1 has it enabled, a tick at the reset time
leaves server 1's queue untouched, so the reset is not performed for every
server with reset enabled. -/
theorem C1_counterexample :
    ¬ specResetEveryEnabledServer ⟨0, false⟩ [(0, false), (1, true)] 0
        ⟨[0], 0, [⟨7, 1, 0, none⟩]⟩ := by
  intro h
  have h1 := (h rfl 1).1 (by decide)
  exact absurd h1 (by decide)

/-- Claim C1 (amended): on a tick whose time-of-day matches the reset time,
the reset is gated solely on the first guild's queue-reset config: when that
config is enabled the whole queue table (every server) is emptied, and when
it is disabled no queue is changed, regardless of the other servers'
configs. -/
theorem C1_amended_first_guild_gates_reset (cfg : SchedulerConfig)
    (configs : List (ServerId × Bool)) (t : Nat) (s : InhouseBotState)
    (g0 : ServerId) (rest : List ServerId)
    (hg : s.guilds = g0 :: rest) (ht : t / 60 = cfg.QUEUE_RESET_TIME) :
    (get_server_config_by_key configs g0 = true →
      (background_jobs cfg configs t none s).state.queues = []) ∧
    (get_server_config_by_key configs g0 = false →
      (background_jobs cfg configs t none s).state.queues = s.queues) := by
  constructor <;> intro hcfg <;>
    simp [background_jobs, runTry, hg, hcfg, ht, reset_queue]

/-- Claim C1 witness: a concrete matching tick with the first guild's reset
enabled empties the queue table. -/
theorem C1_amended_witness :
    (⟨[0], 0, [⟨7, 0, 0, none⟩]⟩ : InhouseBotState).guilds = 0 :: [] ∧
    (0 : Nat) / 60 = (⟨0, false⟩ : SchedulerConfig).QUEUE_RESET_TIME ∧
    get_server_config_by_key [(0, true)] 0 = true ∧
    (background_jobs ⟨0, false⟩ [(0, true)] 0 none
        ⟨[0], 0, [⟨7, 0, 0, none⟩]⟩).state.queues = [] :=
  ⟨rfl, rfl, by decide,
    (C1_amended_first_guild_gates_reset ⟨0, false⟩ [(0, true)] 0
      ⟨[0], 0, [⟨7, 0, 0, none⟩]⟩ 0 [] rfl rfl).1 (by decide)⟩

/-- Claim C2: on a matching tick with reset enabled, the tick function itself
empties the queue table — the queue mutation is applied in the scheduler's
own execution context (the timer thread) — while the only work handed to the
event loop is the channel refresh, not the reset.  This contradicts the
claim (and the function's own docstring) that scheduler ticks only add jobs
to the event loop. -/
theorem C2_reset_runs_in_timer_thread :
    (background_jobs ⟨0, false⟩ [(0, true)] 0 none
        ⟨[0], 0, [⟨7, 0, 0, none⟩]⟩).state.queues = [] ∧
    ([⟨7, 0, 0, none⟩] : List QueueEntry) ≠ [] ∧
    (background_jobs ⟨0, false⟩ [(0, true)] 0 none
        ⟨[0], 0, [⟨7, 0, 0, none⟩]⟩).createdTasks
      = [LoopTask.updateQueueChannels none] := by
  refine ⟨by decide, by decide, by decide⟩

/-- Claim C4: for every scheduler tick, including every tick whose work
raises an exception at any modelled point, the `finally` block schedules the
next tick and advances the job counter — the tick chain never terminates due
to a failure. -/
theorem C4_next_tick_always_scheduled (cfg : SchedulerConfig)
    (configs : List (ServerId × Bool)) (t : Nat) (failAt : Option FailPoint)
    (s : InhouseBotState) :
    (background_jobs cfg configs t failAt s).nextTickScheduled = true ∧
    (background_jobs cfg configs t failAt s).state.job_counter = s.job_counter + 1 :=
  ⟨rfl, rfl⟩

/-- Claim C5: on a polling tick (job counter divisible by 5, tournaments
enabled) with two guilds, the scheduler creates a tournament-check task for
the first guild only; the second managed server is never polled. -/
theorem C5_only_first_guild_polled :
    (background_jobs ⟨1, true⟩ [] 120 none ⟨[10, 20], 0, []⟩).createdTasks
      = [LoopTask.tournamentCheck 10] ∧
    (background_jobs ⟨1, true⟩ [] 120 none
        ⟨[10, 20], 0, []⟩).createdTasks.contains (LoopTask.tournamentCheck 20) = false := by
  refine ⟨by decide, by decide⟩

/-- One tick fires the queue reset exactly under `resetFireCond`: nonempty
guilds, no exception, matching minute, first guild's reset enabled. -/
theorem background_jobs_fires_eq (cfg : SchedulerConfig) (configs : List (ServerId × Bool))
    (t : Nat) (f : Option FailPoint) (s : InhouseBotState) :
    (background_jobs cfg configs t f s).createdTasks.contains
        (LoopTask.updateQueueChannels none)
      = resetFireCond cfg configs s.guilds (t, f) := by
  rcases s with ⟨guilds, jc, qs⟩
  cases guilds with
  | nil => rfl
  | cons g0 rest =>
    show (runTry cfg configs t f jc (g0 :: rest) qs).2.contains
        (LoopTask.updateQueueChannels none) = resetFireCond cfg configs (g0 :: rest) (t, f)
    cases f with
    | none =>
      simp only [runTry, resetFireCond]
      rw [if_neg (by simp)]
      by_cases hm : (t / 60 == cfg.QUEUE_RESET_TIME && get_server_config_by_key configs g0) = true
      · rw [if_pos hm, if_neg (by simp)]
        simp [hm]
      · rw [if_neg hm]
        rw [show ((t, (none : Option FailPoint)).2.isNone
              && ((t, (none : Option FailPoint)).1 / 60 == cfg.QUEUE_RESET_TIME)
              && get_server_config_by_key configs g0)
            = ((t / 60 == cfg.QUEUE_RESET_TIME) && get_server_config_by_key configs g0) by simp,
          Bool.eq_false_iff.mpr hm]
        simp only [tournamentTasks]
        split <;> rfl
    | some fp =>
      cases fp with
      | configLookup => rfl
      | resetQueue =>
        simp only [runTry, resetFireCond]
        rw [if_neg (by simp)]
        by_cases hm : (t / 60 == cfg.QUEUE_RESET_TIME && get_server_config_by_key configs g0) = true
        · rw [if_pos hm]
          simp
        · rw [if_neg hm]
          simp only [tournamentTasks]
          split <;> rfl

/-- `background_jobs` never changes the guild list. -/
theorem background_jobs_guilds (cfg : SchedulerConfig) (configs : List (ServerId × Bool))
    (t : Nat) (f : Option FailPoint) (s : InhouseBotState) :
    (background_jobs cfg configs t f s).state.guilds = s.guilds := rfl

/-- Claim C3 counterexample: two ticks 30 seconds apart inside the single
matching minute both fire the reset, so the reset does not fire at most once
within a matching wall-clock minute. -/
theorem C3_counterexample :
    ¬ specResetAtMostOncePerMinute ⟨0, false⟩ [(0, true)] ⟨[0], 0, []⟩
        [(0, none), (30, none)] := by
  intro h
  have h2 := h (by decide)
  exact absurd h2 (by decide)

/-- Claim C3 (amended): the reset fires at most once per tick, not per
minute: over any run of ticks, the number of reset firings equals the number
of ticks satisfying the firing condition (no exception, minute matching the
reset time, first guild's reset enabled), so every matching tick inside the
minute fires once. -/
theorem C3_amended_once_per_matching_tick (cfg : SchedulerConfig)
    (configs : List (ServerId × Bool)) (s : InhouseBotState)
    (ticks : List (Nat × Option FailPoint)) :
    (runTicks cfg configs s ticks).2
      = (ticks.filter (resetFireCond cfg configs s.guilds)).length := by
  induction ticks generalizing s with
  | nil => simp [runTicks]
  | cons tf rest ih =>
    rcases tf with ⟨t, f⟩
    have hg : (background_jobs cfg configs t f s).state.guilds = s.guilds := rfl
    simp only [runTicks, List.filter]
    rw [background_jobs_fires_eq]
    rw [ih, hg]
    by_cases hc : resetFireCond cfg configs s.guilds (t, f) = true
    · simp [hc]
      omega
    · simp [Bool.eq_false_iff.mpr hc]

/-- On an exception-free tick, the tournament-check task for the first guild
is created exactly when the guild list is nonempty, tournaments are enabled,
and the job counter is divisible by 5. -/
theorem background_jobs_poll_eq (cfg : SchedulerConfig) (configs : List (ServerId × Bool))
    (t : Nat) (s : InhouseBotState) :
    (background_jobs cfg configs t none s).createdTasks.contains
        (LoopTask.tournamentCheck (s.guilds.headD 0))
      = (!s.guilds.isEmpty && (cfg.INHOUSE_BOT_TOURNAMENTS && s.job_counter % 5 == 0)) := by
  rcases s with ⟨guilds, jc, qs⟩
  cases guilds with
  | nil => rfl
  | cons g0 rest =>
    show (runTry cfg configs t none jc (g0 :: rest) qs).2.contains
        (LoopTask.tournamentCheck g0)
      = (!(g0 :: rest).isEmpty && (cfg.INHOUSE_BOT_TOURNAMENTS && jc % 5 == 0))
    simp only [runTry]
    rw [if_neg (by simp)]
    by_cases hm : (t / 60 == cfg.QUEUE_RESET_TIME && get_server_config_by_key configs g0) = true
    · rw [if_pos hm, if_neg (by simp)]
      simp only [tournamentTasks]
      by_cases ht : (cfg.INHOUSE_BOT_TOURNAMENTS && jc % 5 == 0) = true
      · rw [if_pos ht, ht]
        simp
      · rw [if_neg ht, Bool.eq_false_iff.mpr ht]
        rfl
    · rw [if_neg hm]
      simp only [tournamentTasks]
      by_cases ht : (cfg.INHOUSE_BOT_TOURNAMENTS && jc % 5 == 0) = true
      · rw [if_pos ht, ht]
        simp
      · rw [if_neg ht, Bool.eq_false_iff.mpr ht]
        rfl

/-- Claim C9: the job counter is incremented exactly once per tick, including
ticks whose work raised an exception, and on an exception-free tick the
tournament poll task is created exactly when tournaments are enabled, the
counter is divisible by 5, and the guild list is nonempty — in particular
the very first tick (counter 0) polls. -/
theorem C9_counter_increment_and_poll_cadence (cfg : SchedulerConfig)
    (configs : List (ServerId × Bool)) (t : Nat) (failAt : Option FailPoint)
    (s : InhouseBotState) :
    (background_jobs cfg configs t failAt s).state.job_counter = s.job_counter + 1 ∧
    ((background_jobs cfg configs t none s).createdTasks.contains
        (LoopTask.tournamentCheck (s.guilds.headD 0)) = true ↔
      cfg.INHOUSE_BOT_TOURNAMENTS = true ∧ s.job_counter % 5 = 0 ∧ s.guilds ≠ []) := by
  refine ⟨rfl, ?_⟩
  rw [background_jobs_poll_eq]
  rcases s with ⟨guilds, jc, qs⟩
  cases guilds with
  | nil => simp
  | cons g0 rest => simp [Bool.and_eq_true]

/-- Claim C6: `on_ready` leaves no ready-check Pending (every active check
is force-transitioned to Cancelled), and its step trace runs the
cancellation first, before the queue channels are rewritten and before the
background-jobs scheduler is started. -/
theorem C6_on_ready_cancels_checks_first (checks : List (ServerId × CheckStatus)) :
    ((on_ready checks).1.all (fun c => c.2 != CheckStatus.pending)) = true ∧
    (on_ready checks).2
      = [ReadyAction.cancelAllReadyChecks, ReadyAction.updateQueueChannelsAll,
         ReadyAction.updateRankingChannelsAll, ReadyAction.startBackgroundJobs] := by
  refine ⟨?_, rfl⟩
  simp only [on_ready, cancel_all_ready_checks, List.all_eq_true, List.mem_map]
  rintro x ⟨c, _, rfl⟩
  by_cases h : c.2 = CheckStatus.pending
  · simp [h]
  · simp [h]

/-- Claim C7: a duo-join request with equal roles always fails with
`SameRolesForDuo` — no state is returned, so neither entry is inserted —
and `on_command_error` reports that failure to the caller with the
duo-roles message. -/
theorem C7_duo_same_roles_rejected (st : QueueState) (sid : ServerId)
    (pA pB : PlayerId) (r : Role) :
    joinDuo st sid pA r pB r = Except.error QueueError.sameRolesForDuo ∧
    on_command_error (surface QueueError.sameRolesForDuo)
      = [SentMessage.duosDifferentRolesMsg] := by
  refine ⟨?_, rfl⟩
  simp [joinDuo]

/-- Claim C8: a join request by a player with no active entry who is a
participant of an awaiting-result game or of a pending ready-check on the
server fails with the bar failure — no state is returned, so the queue is
unchanged — and `on_command_error` reports the surfaced failure to the
caller. -/
theorem C8_barred_player_join_rejected (st : QueueState) (sid : ServerId)
    (p : PlayerId) (r : Role)
    (hq : hasActiveEntry st sid p = false)
    (hbar : inAwaitingGame st sid p = true ∨ inPendingCheck st sid p = true) :
    ∃ b, join st sid p r = Except.error (QueueError.playerBarred b) ∧
      on_command_error (surface (QueueError.playerBarred b)) ≠ [] := by
  by_cases hg : inAwaitingGame st sid p = true
  · exact ⟨true, by simp [join, joinCheck, hq, hg], by simp [surface, on_command_error]⟩
  · have hg2 : inAwaitingGame st sid p = false := Bool.eq_false_iff.mpr hg
    have hc : inPendingCheck st sid p = true := hbar.resolve_left hg
    exact ⟨false, by simp [join, joinCheck, hq, hg2, hc], by simp [surface, on_command_error]⟩

/-- Claim C8 witness: a concrete player who is a participant of an
awaiting-result game and has no active entry is rejected with the bar
failure, and the handler sends a message for it. -/
theorem C8_barred_player_join_rejected_witness :
    hasActiveEntry ⟨[], [(0, [5])], []⟩ 0 5 = false ∧
    inAwaitingGame ⟨[], [(0, [5])], []⟩ 0 5 = true ∧
    ∃ b, join ⟨[], [(0, [5])], []⟩ 0 5 0 = Except.error (QueueError.playerBarred b) ∧
      on_command_error (surface (QueueError.playerBarred b)) ≠ [] :=
  ⟨by decide, by decide,
    C8_barred_player_join_rejected ⟨[], [(0, [5])], []⟩ 0 5 0 (by decide)
      (Or.inl (by decide))⟩

/-- Claim C10: `on_command_error` sends no message exactly for
`ConversionError`; every other handled error kind produces at least one
user-facing message. -/
theorem C10_conversion_errors_silent (e : BotError) :
    on_command_error e = [] ↔ e = BotError.conversionError := by
  cases e with
  | commandInvokeError og => cases og <;> simp [on_command_error]
  | _ => simp [on_command_error]

end InhouseBotVerify
